import Mathlib

/-! AIEngine2D: console logger and engine lifecycle.

A shallow embedding of `src/core/logger.h` and `src/main.cpp`.

* The C library and the windowing layer (SDL / OpenGL) are external to the
  repository.  Every call the code makes to them is recorded, in program order,
  in an effect trace; what a call returns is supplied by a stub.
* Pointers are natural numbers, `0` being `nullptr`.
* `printf` is modelled for string arguments, so for the directives `%s` and `%%`.
-/

namespace SebF2DEngine

/-! ## Logger (`src/core/logger.h`) -/

/-- Enumeration `LogLevel` of logger.h. -/
inductive LogLevel
  | Info
  | Warning
  | Error
  deriving DecidableEq, Repr

/-- What the logger does to the console: a Win32 text-attribute call, or bytes
written to standard output. -/
inductive ConsoleOp
  | SetConsoleTextAttribute (attributes : Nat)
  | write (bytes : String)
  deriving DecidableEq, Repr

/-- Win32 console attribute bit (wincon.h). -/
def FOREGROUND_BLUE : Nat := 1

/-- Win32 console attribute bit (wincon.h). -/
def FOREGROUND_GREEN : Nat := 2

/-- Win32 console attribute bit (wincon.h). -/
def FOREGROUND_RED : Nat := 4

/-- Win32 console attribute bit (wincon.h). -/
def FOREGROUND_INTENSITY : Nat := 8

/-- Expansion of a printf format over string arguments: `%s` is replaced by the
next argument, `%%` by a percent sign, every other character is copied.  A `%s`
without an argument (undefined in C) expands to nothing. -/
def formatChars : List Char → List String → List Char
  | [], _ => []
  | '%' :: 's' :: rest, a :: args => a.data ++ formatChars rest args
  | '%' :: 's' :: rest, [] => formatChars rest []
  | '%' :: '%' :: rest, args => '%' :: formatChars rest args
  | c :: rest, args => c :: formatChars rest args

/-- The text `vprintf(format, args)` writes. -/
def vformat (format : String) (args : List String) : String :=
  String.mk (formatChars format.data args)

/-- One call `printf(format, args...)`: the formatted text goes to standard output. -/
def printf (format : String) (args : List String) : ConsoleOp :=
  ConsoleOp.write (vformat format args)

namespace Logger

/-- Source: `Logger::getLevelPrefix`.  The `default:` branch of the source
(`"[UNKNOWN]"`) is not reachable from the three enumerators. -/
def getLevelPrefix : LogLevel → String
  | LogLevel.Info => "[INFO]"
  | LogLevel.Warning => "[WARNING]"
  | LogLevel.Error => "[ERROR]"

/-- Source: `Logger::setConsoleColor`; `win32` selects the `#ifdef _WIN32` branch. -/
def setConsoleColor (win32 : Bool) (level : LogLevel) : List ConsoleOp :=
  if win32 then
    match level with
    | LogLevel.Info =>
      [ConsoleOp.SetConsoleTextAttribute (FOREGROUND_GREEN ||| FOREGROUND_INTENSITY)]
    | LogLevel.Warning =>
      [ConsoleOp.SetConsoleTextAttribute
        (FOREGROUND_RED ||| FOREGROUND_GREEN ||| FOREGROUND_INTENSITY)]
    | LogLevel.Error =>
      [ConsoleOp.SetConsoleTextAttribute (FOREGROUND_RED ||| FOREGROUND_INTENSITY)]
  else
    match level with
    | LogLevel.Info => [printf "\x1b[32m" []]
    | LogLevel.Warning => [printf "\x1b[33m" []]
    | LogLevel.Error => [printf "\x1b[31m" []]

/-- Source: `Logger::resetConsoleColor`. -/
def resetConsoleColor (win32 : Bool) : List ConsoleOp :=
  if win32 then
    [ConsoleOp.SetConsoleTextAttribute (FOREGROUND_RED ||| FOREGROUND_GREEN ||| FOREGROUND_BLUE)]
  else
    [printf "\x1b[0m" []]

/-- Source: `Logger::log`.  The statements in order: set the colour, print the
level tag and a space, print the message, print a newline, reset the colour. -/
def log (win32 : Bool) (level : LogLevel) (format : String) (args : List String) :
    List ConsoleOp :=
  let c := setConsoleColor win32 level
  let tag := getLevelPrefix level
  let p := [printf "%s " [tag]]
  let m := [printf format args]
  let n := [printf "\n" []]
  let r := resetConsoleColor win32
  c ++ p ++ m ++ n ++ r

end Logger

/-- The bytes a sequence of console operations puts on standard output. -/
def stdoutBytes : List ConsoleOp → String
  | [] => ""
  | ConsoleOp.write s :: rest => s ++ stdoutBytes rest
  | ConsoleOp.SetConsoleTextAttribute _ :: rest => stdoutBytes rest

/-- Number of newline characters in a text, that is the number of lines it ends. -/
def newlineCount (s : String) : Nat :=
  s.data.count '\n'

/-! ## Engine (`src/main.cpp`) -/

/-- A raw pointer; `0` is `nullptr`. -/
abbrev Ptr := Nat

/-- The null pointer. -/
abbrev nullptr : Ptr := 0

/-- The part of the `SDL_Event` union the engine reads: the tag `type` and the
field `key.keysym.sym`. -/
structure SDL_Event where
  type : Nat
  key_keysym_sym : Int
  deriving DecidableEq, Repr

/-- SDL constant (SDL_events.h). -/
def SDL_QUIT : Nat := 0x100

/-- SDL constant (SDL_events.h). -/
def SDL_KEYDOWN : Nat := 0x300

/-- SDL constant (SDL_events.h). -/
def SDL_KEYUP : Nat := 0x301

/-- SDL constant (SDL_keycode.h). -/
def SDLK_ESCAPE : Int := 27

/-- SDL constant (SDL.h). -/
def SDL_INIT_TIMER : Nat := 0x1

/-- SDL constant (SDL.h). -/
def SDL_INIT_AUDIO : Nat := 0x10

/-- SDL constant (SDL.h). -/
def SDL_INIT_VIDEO : Nat := 0x20

/-- SDL constant (SDL_video.h, enum SDL_GLattr). -/
def SDL_GL_DOUBLEBUFFER : Nat := 5

/-- SDL constant (SDL_video.h, enum SDL_GLattr). -/
def SDL_GL_CONTEXT_MAJOR_VERSION : Nat := 17

/-- SDL constant (SDL_video.h, enum SDL_GLattr). -/
def SDL_GL_CONTEXT_MINOR_VERSION : Nat := 18

/-- SDL constant (SDL_video.h, enum SDL_GLattr). -/
def SDL_GL_CONTEXT_PROFILE_MASK : Nat := 21

/-- SDL constant (SDL_video.h, enum SDL_GLprofile). -/
def SDL_GL_CONTEXT_PROFILE_CORE : Int := 1

/-- SDL constant (SDL_video.h). -/
def SDL_WINDOWPOS_CENTERED : Int := 0x2FFF0000

/-- SDL constant (SDL_video.h). -/
def SDL_WINDOW_OPENGL : Nat := 0x2

/-- SDL constant (SDL_video.h). -/
def SDL_WINDOW_SHOWN : Nat := 0x4

/-- OpenGL constant (gl.h). -/
def GL_COLOR_BUFFER_BIT : Nat := 0x4000

/-- One call made by the engine, with its arguments and, where the engine uses
it, the value the call returned.  `update` records that `Engine::update` ran
(its body is empty); colour components of `glClearColor` are in thousandths. -/
inductive Effect
  | SDL_Init (flags : Nat) (result : Int)
  | SDL_GetError (result : String)
  | SDL_GL_SetAttribute (attr : Nat) (value : Int)
  | SDL_CreateWindow (title : String) (x y w h : Int) (flags : Nat) (result : Ptr)
  | SDL_GL_CreateContext (window : Ptr) (result : Ptr)
  | SDL_GL_SetSwapInterval (interval : Int)
  | SDL_GL_DeleteContext (context : Ptr)
  | SDL_DestroyWindow (window : Ptr)
  | SDL_Quit
  | SDL_PollEvent (result : Option SDL_Event)
  | update
  | glClearColor (r g b a : Nat)
  | glClear (mask : Nat)
  | SDL_GL_SwapWindow (window : Ptr)
  | log (level : LogLevel) (format : String) (args : List String)
  deriving DecidableEq, Repr

/-- What the stubbed windowing layer answers during one call of `Engine::init`. -/
structure InitStub where
  SDL_Init : Int
  SDL_CreateWindow : Ptr
  SDL_GL_CreateContext : Ptr
  SDL_GetError : String
  deriving DecidableEq, Repr

/-- Data members of class `Engine`, with their default member initialisers. -/
structure Engine where
  m_window : Ptr := nullptr
  m_glContext : Ptr := nullptr
  m_running : Bool := false
  deriving DecidableEq, Repr

namespace Engine

/-- Source: `Engine::init`.  Returns the result, the engine afterwards and the
calls made. -/
def init (e : Engine) (p : InitStub) : Bool × Engine × List Effect :=
  let t0 := [Effect.SDL_Init (SDL_INIT_VIDEO ||| SDL_INIT_AUDIO ||| SDL_INIT_TIMER) p.SDL_Init]
  if p.SDL_Init < 0 then
    (false, e, t0 ++ [Effect.SDL_GetError p.SDL_GetError,
      Effect.log LogLevel.Error "SDL initialization failed: %s" [p.SDL_GetError]])
  else
    let t1 := t0 ++ [Effect.SDL_GL_SetAttribute SDL_GL_CONTEXT_MAJOR_VERSION 3,
      Effect.SDL_GL_SetAttribute SDL_GL_CONTEXT_MINOR_VERSION 3,
      Effect.SDL_GL_SetAttribute SDL_GL_CONTEXT_PROFILE_MASK SDL_GL_CONTEXT_PROFILE_CORE,
      Effect.SDL_GL_SetAttribute SDL_GL_DOUBLEBUFFER 1,
      Effect.SDL_CreateWindow "AIEngine2D - Test" SDL_WINDOWPOS_CENTERED SDL_WINDOWPOS_CENTERED
        800 600 (SDL_WINDOW_OPENGL ||| SDL_WINDOW_SHOWN) p.SDL_CreateWindow]
    let e1 : Engine := { e with m_window := p.SDL_CreateWindow }
    if e1.m_window = nullptr then
      (false, e1, t1 ++ [Effect.SDL_GetError p.SDL_GetError,
        Effect.log LogLevel.Error "Window creation failed: %s" [p.SDL_GetError]])
    else
      let t2 := t1 ++ [Effect.SDL_GL_CreateContext e1.m_window p.SDL_GL_CreateContext]
      let e2 : Engine := { e1 with m_glContext := p.SDL_GL_CreateContext }
      if e2.m_glContext = nullptr then
        (false, e2, t2 ++ [Effect.SDL_GetError p.SDL_GetError,
          Effect.log LogLevel.Error "OpenGL context creation failed: %s" [p.SDL_GetError]])
      else
        (true, e2, t2 ++ [Effect.SDL_GL_SetSwapInterval 1,
          Effect.log LogLevel.Info "Engine initialized successfully" [],
          Effect.log LogLevel.Info "Window: 800x600" [],
          Effect.log LogLevel.Info "OpenGL context created" [],
          Effect.log LogLevel.Info "Press ESC to exit" [],
          Effect.log LogLevel.Warning "This is a warning test" [],
          Effect.log LogLevel.Error "This is an error test (not a real error)" []])

/-- Source: `Engine::shutdown`. -/
def shutdown (e : Engine) : Engine × List Effect :=
  let (e1, t1) :=
    if e.m_glContext ≠ nullptr then
      (({ e with m_glContext := nullptr } : Engine), [Effect.SDL_GL_DeleteContext e.m_glContext])
    else (e, [])
  let (e2, t2) :=
    if e1.m_window ≠ nullptr then
      (({ e1 with m_window := nullptr } : Engine), [Effect.SDL_DestroyWindow e1.m_window])
    else (e1, [])
  (e2, t1 ++ t2 ++ [Effect.SDL_Quit, Effect.log LogLevel.Info "Engine shutdown complete" []])

/-- The `switch (event.type)` statement in the body of `Engine::handleEvents`. -/
def handleEvents_switch (e : Engine) (event : SDL_Event) : Engine :=
  if event.type = SDL_QUIT then
    { e with m_running := false }
  else if event.type = SDL_KEYDOWN then
    if event.key_keysym_sym = SDLK_ESCAPE then { e with m_running := false } else e
  else e

/-- Source: `Engine::handleEvents`, run on the queue of pending events.  Each
turn of `while (SDL_PollEvent(&event))` takes the event at the head of the
queue; the poll on the empty queue returns 0 and ends the loop.  Returns the
engine, the queue left behind and the calls made. -/
def handleEvents (e : Engine) : List SDL_Event → Engine × List SDL_Event × List Effect
  | [] => (e, [], [Effect.SDL_PollEvent none])
  | event :: queue =>
    let r := handleEvents (handleEvents_switch e event) queue
    (r.1, r.2.1, Effect.SDL_PollEvent (some event) :: r.2.2)

/-- Source: `Engine::update` (empty body). -/
def update (e : Engine) : Engine × List Effect :=
  (e, [Effect.update])

/-- Source: `Engine::render`. -/
def render (e : Engine) : Engine × List Effect :=
  (e, [Effect.glClearColor 392 584 929 1000, Effect.glClear GL_COLOR_BUFFER_BIT,
    Effect.SDL_GL_SwapWindow e.m_window])

/-- The body of the `while (m_running)` loop of `Engine::run`: one iteration on
the events pending when it polls. -/
def iteration (e : Engine) (batch : List SDL_Event) : Engine × List Effect :=
  let r1 := e.handleEvents batch
  let r2 := r1.1.update
  let r3 := r2.1.render
  (r3.1, r1.2.2 ++ r2.2 ++ r3.2)

/-- The loop `while (m_running) ...` of `Engine::run`.  The schedule lists, for
each iteration still to come, the events pending when that iteration polls.
`none`: the loop is still running when the schedule is used up. -/
def whileRunning : Engine → List (List SDL_Event) → Option (Engine × List Effect)
  | e, [] => if e.m_running then none else some (e, [])
  | e, batch :: rest =>
    if e.m_running then
      let r := e.iteration batch
      match whileRunning r.1 rest with
      | some (e2, t) => some (e2, r.2 ++ t)
      | none => none
    else some (e, [])

/-- Source: `Engine::run`. -/
def run (e : Engine) (schedule : List (List SDL_Event)) : Option (Engine × List Effect) :=
  whileRunning { e with m_running := true } schedule

end Engine

end SebF2DEngine

namespace SebF2DEngine

/-! ## Vocabulary of the specification -/

/-- An event that asks the loop to stop, in the words of the specification: a
quit event, or a key-down event whose keycode is escape. -/
def isQuitRequest (event : SDL_Event) : Bool :=
  decide (event.type = SDL_QUIT) ||
    (decide (event.type = SDL_KEYDOWN) && decide (event.key_keysym_sym = SDLK_ESCAPE))

/-- The polls that drain a batch: one successful poll per event, in order, then
the poll that finds the queue empty. -/
def polls (batch : List SDL_Event) : List Effect :=
  batch.map (fun event => Effect.SDL_PollEvent (some event)) ++ [Effect.SDL_PollEvent none]

/-- The calls of the steps that follow `handleEvents` in one iteration: `update`,
then `render` on the window `w`. -/
def updateThenRender (w : Ptr) : List Effect :=
  [Effect.update, Effect.glClearColor 392 584 929 1000, Effect.glClear GL_COLOR_BUFFER_BIT,
    Effect.SDL_GL_SwapWindow w]

/-- A call that releases a resource: context deletion, window destruction or
the release of the subsystems. -/
def Effect.isRelease : Effect → Bool
  | Effect.SDL_GL_DeleteContext _ => true
  | Effect.SDL_DestroyWindow _ => true
  | Effect.SDL_Quit => true
  | _ => false

/-- A call to the logger. -/
def Effect.isLog : Effect → Bool
  | Effect.log _ _ _ => true
  | _ => false

/-- A call to the logger at level `Error`. -/
def Effect.isErrorLog : Effect → Bool
  | Effect.log LogLevel.Error _ _ => true
  | _ => false

/-- A call made from inside the run loop: an event poll, the update step, or one
of the three calls of `render`. -/
def Effect.isLoopCall : Effect → Bool
  | Effect.SDL_PollEvent _ => true
  | Effect.update => true
  | Effect.glClearColor _ _ _ _ => true
  | Effect.glClear _ => true
  | Effect.SDL_GL_SwapWindow _ => true
  | _ => false

/-! ## Call sequences and handle lifetimes -/

/-- One call of the engine's public lifecycle interface; an `init` comes with
the answers of the stubbed windowing layer during that call. -/
inductive Call
  | init (p : InitStub)
  | shutdown
  deriving DecidableEq, Repr

/-- A sequence of `init()` / `shutdown()` calls on one engine: the engine
afterwards and all the calls made, in order. -/
def Engine.calls : Engine → List Call → Engine × List Effect
  | e, [] => (e, [])
  | e, Call.init p :: cs =>
    let r := e.init p
    let r2 := Engine.calls r.2.1 cs
    (r2.1, r.2.2 ++ r2.2)
  | e, Call.shutdown :: cs =>
    let r := e.shutdown
    let r2 := Engine.calls r.1 cs
    (r2.1, r.2 ++ r2.2)

/-- The handles that are alive at a point of an effect trace: the windows, and
the contexts, each with the window it was created on. -/
structure Live where
  windows : List Ptr := []
  contexts : List (Ptr × Ptr) := []
  deriving DecidableEq, Repr

/-- How one call changes the live handles.  A creation that returns null
creates nothing. -/
def Live.step (l : Live) : Effect → Live
  | Effect.SDL_CreateWindow _ _ _ _ _ _ w =>
    if w = nullptr then l else { l with windows := w :: l.windows }
  | Effect.SDL_GL_CreateContext w c =>
    if c = nullptr then l else { l with contexts := (c, w) :: l.contexts }
  | Effect.SDL_GL_DeleteContext c =>
    { l with contexts := l.contexts.filter (fun x => decide (x.1 ≠ c)) }
  | Effect.SDL_DestroyWindow w =>
    { l with windows := l.windows.filter (fun x => decide (x ≠ w)) }
  | _ => l

/-- The live handles after a whole trace. -/
def Live.after (l : Live) (t : List Effect) : Live :=
  t.foldl Live.step l

/-- Every context creation in the trace names a window that is alive at that point. -/
def contextsOnLiveWindows : Live → List Effect → Bool
  | _, [] => true
  | l, Effect.SDL_GL_CreateContext w c :: t =>
    decide (w ∈ l.windows) && contextsOnLiveWindows (l.step (Effect.SDL_GL_CreateContext w c)) t
  | l, x :: t => contextsOnLiveWindows (l.step x) t

/-- No window destruction in the trace hits a window on which a context is
still alive at that point. -/
def windowsOutliveContexts : Live → List Effect → Bool
  | _, [] => true
  | l, Effect.SDL_DestroyWindow w :: t =>
    l.contexts.all (fun x => decide (x.2 ≠ w)) &&
      windowsOutliveContexts (l.step (Effect.SDL_DestroyWindow w)) t
  | l, x :: t => windowsOutliveContexts (l.step x) t

/-- The windowing layer never hands out a window handle that is still alive:
every window creation in the trace returns null or a handle not alive at that
point. -/
def windowHandlesFresh : Live → List Effect → Bool
  | _, [] => true
  | l, Effect.SDL_CreateWindow title x y w h flags r :: t =>
    (decide (r = nullptr) || decide (r ∉ l.windows)) &&
      windowHandlesFresh (l.step (Effect.SDL_CreateWindow title x y w h flags r)) t
  | l, x :: t => windowHandlesFresh (l.step x) t

/-- What links the engine to the live handles between two lifecycle calls: null
is not a live window, every live context is non-null and sits on a live window,
and a live context on the engine's window is the engine's context. -/
def LifetimeInv (e : Engine) (l : Live) : Prop :=
  nullptr ∉ l.windows ∧
    ∀ c w : Ptr, (c, w) ∈ l.contexts →
      w ∈ l.windows ∧ c ≠ nullptr ∧ (w = e.m_window → c = e.m_glContext)

end SebF2DEngine

namespace AIEngine2D

open SebF2DEngine

/-- Source: the global function `main` of main.cpp.  Returns the exit code and the calls made; `none` when
`run()` has not returned within the schedule.  `argc` and `argv` are discarded
(`(void)argc; (void)argv;`). -/
def main (_argc : Int) (_argv : List String) (p : InitStub)
    (schedule : List (List SDL_Event)) : Option (Int × List Effect) :=
  let engine : Engine := {}
  let r0 := engine.init p
  if !r0.1 then
    some (1, r0.2.2)
  else
    match r0.2.1.run schedule with
    | none => none
    | some (e1, t1) =>
      let r2 := e1.shutdown
      some (0, r0.2.2 ++ t1 ++ r2.2)

end AIEngine2D

/-! ## Theorems -/

namespace SebF2DEngine

/-! ### Event handling -/

theorem handleEvents_switch_eq (e : Engine) (event : SDL_Event) :
    e.handleEvents_switch event =
      { e with m_running := e.m_running && !isQuitRequest event } := by
  have hne : SDL_KEYDOWN ≠ SDL_QUIT := by decide
  unfold Engine.handleEvents_switch isQuitRequest
  by_cases h1 : event.type = SDL_QUIT
  · simp [h1]
  · by_cases h2 : event.type = SDL_KEYDOWN
    · by_cases h3 : event.key_keysym_sym = SDLK_ESCAPE
      · simp [h2, h3]
      · simp [h2, h3, hne]
    · simp [h1, h2]

theorem handleEvents_engine (batch : List SDL_Event) (e : Engine) :
    (e.handleEvents batch).1 =
      { e with m_running := e.m_running && !batch.any isQuitRequest } := by
  induction batch generalizing e with
  | nil => simp [Engine.handleEvents]
  | cons event queue ih =>
    simp only [Engine.handleEvents, ih, handleEvents_switch_eq, List.any_cons, Bool.not_or,
      Bool.and_assoc]

theorem handleEvents_queue (batch : List SDL_Event) (e : Engine) :
    (e.handleEvents batch).2.1 = [] := by
  induction batch generalizing e with
  | nil => simp [Engine.handleEvents]
  | cons event queue ih => simp only [Engine.handleEvents, ih]

theorem handleEvents_trace (batch : List SDL_Event) (e : Engine) :
    (e.handleEvents batch).2.2 = polls batch := by
  induction batch generalizing e with
  | nil => simp [Engine.handleEvents, polls]
  | cons event queue ih =>
    simp only [Engine.handleEvents, ih]
    simp [polls]

theorem iteration_eq (e : Engine) (batch : List SDL_Event) :
    e.iteration batch =
      ({ e with m_running := e.m_running && !batch.any isQuitRequest },
        polls batch ++ updateThenRender e.m_window) := by
  simp [Engine.iteration, Engine.update, Engine.render, handleEvents_engine, handleEvents_trace,
    updateThenRender]

theorem any_isQuitRequest_of_mem {batch : List SDL_Event}
    (h : ∃ event ∈ batch, isQuitRequest event = true) : batch.any isQuitRequest = true := by
  obtain ⟨event, hm, hq⟩ := h
  exact List.any_eq_true.mpr ⟨event, hm, hq⟩

theorem any_isQuitRequest_of_none {batch : List SDL_Event}
    (h : ∀ event ∈ batch, isQuitRequest event = false) : batch.any isQuitRequest = false := by
  cases hb : batch.any isQuitRequest with
  | false => rfl
  | true =>
    obtain ⟨event, hm, hq⟩ := List.any_eq_true.mp hb
    rw [h event hm] at hq
    exact absurd hq (by decide)

theorem whileRunning_stopped (e : Engine) (schedule : List (List SDL_Event))
    (h : e.m_running = false) : Engine.whileRunning e schedule = some (e, []) := by
  cases schedule <;> simp [Engine.whileRunning, h]

theorem whileRunning_step (e : Engine) (batch : List SDL_Event) (rest : List (List SDL_Event))
    (h : e.m_running = true) :
    Engine.whileRunning e (batch :: rest) =
      (Engine.whileRunning { e with m_running := !batch.any isQuitRequest } rest).map
        (fun r => (r.1, polls batch ++ updateThenRender e.m_window ++ r.2)) := by
  simp only [Engine.whileRunning, h, if_true, iteration_eq, Bool.true_and]
  cases Engine.whileRunning { e with m_running := !batch.any isQuitRequest } rest with
  | none => rfl
  | some r => rfl

/-- C10: `handleEvents` drains the whole batch; afterwards the running flag is the
flag before AND "no event of the batch is a quit request"; it never turns the
flag from false to true; the outcome does not depend on the order of the events;
events behind a quit request are still polled and do not re-enable the loop; the
window and context handles are unchanged. -/
theorem C10_handleEvents_flag (e : Engine) (batch : List SDL_Event) :
    (e.handleEvents batch).2.1 = [] ∧
    (e.handleEvents batch).2.2 = polls batch ∧
    (e.handleEvents batch).1.m_running = (e.m_running && !batch.any isQuitRequest) ∧
    (e.m_running = false → (e.handleEvents batch).1.m_running = false) ∧
    (∀ batch2 : List SDL_Event, batch2.Perm batch →
      (e.handleEvents batch2).1 = (e.handleEvents batch).1) ∧
    (∀ (before after : List SDL_Event) (quit : SDL_Event), isQuitRequest quit = true →
      batch = before ++ quit :: after →
      (∀ event ∈ after, Effect.SDL_PollEvent (some event) ∈ (e.handleEvents batch).2.2) ∧
      (e.handleEvents batch).1.m_running = false) ∧
    (e.handleEvents batch).1.m_window = e.m_window ∧
    (e.handleEvents batch).1.m_glContext = e.m_glContext := by
  refine ⟨handleEvents_queue batch e, handleEvents_trace batch e, ?_, ?_, ?_, ?_, ?_, ?_⟩
  · rw [handleEvents_engine]
  · intro h
    rw [handleEvents_engine]
    simp [h]
  · intro batch2 hp
    rw [handleEvents_engine, handleEvents_engine]
    have hany : batch2.any isQuitRequest = batch.any isQuitRequest := by
      rw [Bool.eq_iff_iff]
      simp only [List.any_eq_true, hp.mem_iff]
    rw [hany]
  · intro before after quit hq hb
    subst hb
    constructor
    · intro event hm
      rw [handleEvents_trace]
      simp [polls, hm]
    · rw [handleEvents_engine]
      simp [hq]
  · rw [handleEvents_engine]
  · rw [handleEvents_engine]

/-- Witness of C10 on a batch with a key-up, a quit event and a further key-down. -/
theorem C10_handleEvents_flag_witness :
    (∀ event ∈ [(⟨SDL_KEYDOWN, 97⟩ : SDL_Event)], Effect.SDL_PollEvent (some event) ∈
      (({ m_window := 1, m_glContext := 2, m_running := true } : Engine).handleEvents
        [⟨SDL_KEYUP, 27⟩, ⟨SDL_QUIT, 0⟩, ⟨SDL_KEYDOWN, 97⟩]).2.2) ∧
    (({ m_window := 1, m_glContext := 2, m_running := true } : Engine).handleEvents
        [⟨SDL_KEYUP, 27⟩, ⟨SDL_QUIT, 0⟩, ⟨SDL_KEYDOWN, 97⟩]).1.m_running = false :=
  (C10_handleEvents_flag { m_window := 1, m_glContext := 2, m_running := true }
    [⟨SDL_KEYUP, 27⟩, ⟨SDL_QUIT, 0⟩, ⟨SDL_KEYDOWN, 97⟩]).2.2.2.2.2.1
    [⟨SDL_KEYUP, 27⟩] [⟨SDL_KEYDOWN, 97⟩] ⟨SDL_QUIT, 0⟩ (by decide) rfl

/-- C4: when the pending batch holds a quit event or an escape key-down,
`handleEvents` clears the running flag, `update` and then `render` of that
iteration still run once, and `run()` returns after this one iteration, whatever
is scheduled behind it.  The same holds for the loop at any later iteration
(any engine whose flag is set). -/
theorem C4_quit_request_ends_run (e : Engine) (batch : List SDL_Event)
    (rest : List (List SDL_Event)) (h : ∃ event ∈ batch, isQuitRequest event = true) :
    (({ e with m_running := true } : Engine).handleEvents batch).1.m_running = false ∧
    e.run (batch :: rest) =
      some ({ e with m_running := false }, polls batch ++ updateThenRender e.m_window) ∧
    (e.m_running = true →
      Engine.whileRunning e (batch :: rest) =
        some ({ e with m_running := false }, polls batch ++ updateThenRender e.m_window)) := by
  have hany := any_isQuitRequest_of_mem h
  refine ⟨?_, ?_, ?_⟩
  · rw [handleEvents_engine]
    simp [hany]
  · unfold Engine.run
    rw [whileRunning_step _ _ _ rfl, hany, whileRunning_stopped _ _ rfl]
    simp
  · intro hr
    rw [whileRunning_step _ _ _ hr, hany, whileRunning_stopped _ _ rfl]
    simp

/-- Witness of C4: an escape key-down behind another event, with two more batches scheduled. -/
theorem C4_quit_request_ends_run_witness :
    (({ m_window := 1, m_glContext := 2, m_running := false } : Engine).run
        ([⟨SDL_KEYUP, 27⟩, ⟨SDL_KEYDOWN, 27⟩] :: [[], [⟨SDL_QUIT, 0⟩]])) =
      some ({ m_window := 1, m_glContext := 2, m_running := false },
        polls [⟨SDL_KEYUP, 27⟩, ⟨SDL_KEYDOWN, 27⟩] ++ updateThenRender 1) :=
  (C4_quit_request_ends_run { m_window := 1, m_glContext := 2, m_running := false }
    [⟨SDL_KEYUP, 27⟩, ⟨SDL_KEYDOWN, 27⟩] [[], [⟨SDL_QUIT, 0⟩]]
    ⟨⟨SDL_KEYDOWN, 27⟩, by decide, by decide⟩).2.1

/-- C5: when no event of the pending batch is a quit event or an escape key-down,
`handleEvents` leaves the engine as it was, with the running flag set; the loop
does not return after that iteration and goes on with the next scheduled batch.
Key-down events of other keys, and events of any other kind whatever keycode
they carry (key-up with escape among them), leave the flag alone. -/
theorem C5_other_events_keep_running (e : Engine) (batch : List SDL_Event)
    (rest : List (List SDL_Event)) (h : ∀ event ∈ batch, isQuitRequest event = false)
    (hr : e.m_running = true) :
    (e.handleEvents batch).1 = e ∧
    (e.handleEvents batch).1.m_running = true ∧
    Engine.whileRunning e [batch] = none ∧
    Engine.whileRunning e (batch :: rest) =
      (Engine.whileRunning e rest).map
        (fun r => (r.1, polls batch ++ updateThenRender e.m_window ++ r.2)) ∧
    e.run (batch :: rest) =
      (e.run rest).map (fun r => (r.1, polls batch ++ updateThenRender e.m_window ++ r.2)) ∧
    (∀ k : Int, k ≠ SDLK_ESCAPE → e.handleEvents_switch ⟨SDL_KEYDOWN, k⟩ = e) ∧
    (∀ (t : Nat) (k : Int), t ≠ SDL_QUIT → t ≠ SDL_KEYDOWN → e.handleEvents_switch ⟨t, k⟩ = e) ∧
    e.handleEvents_switch ⟨SDL_KEYUP, SDLK_ESCAPE⟩ = e := by
  have hany := any_isQuitRequest_of_none h
  have hsame : ({ e with m_running := !batch.any isQuitRequest } : Engine) = e := by
    cases e
    simp_all
  have hne : SDL_KEYDOWN ≠ SDL_QUIT := by decide
  refine ⟨?_, ?_, ?_, ?_, ?_, ?_, ?_, ?_⟩
  · rw [handleEvents_engine, hany, hr]
    cases e
    simp_all
  · rw [handleEvents_engine, hany, hr]
    rfl
  · rw [whileRunning_step _ _ _ hr, hsame]
    simp [Engine.whileRunning, hr]
  · rw [whileRunning_step _ _ _ hr, hsame]
  · unfold Engine.run
    rw [whileRunning_step _ _ _ rfl, hany]
    rfl
  · intro k hk
    rw [handleEvents_switch_eq]
    cases e
    simp [isQuitRequest, hk, hne]
  · intro t k h1 h2
    rw [handleEvents_switch_eq]
    cases e
    simp [isQuitRequest, h1, h2]
  · rw [handleEvents_switch_eq]
    cases e
    simp [isQuitRequest, SDL_KEYUP, SDL_QUIT, SDL_KEYDOWN]

/-- Witness of C5: a key-up carrying the escape keycode and a key-down of another key. -/
theorem C5_other_events_keep_running_witness :
    Engine.whileRunning { m_window := 1, m_glContext := 2, m_running := true }
        [[⟨SDL_KEYUP, 27⟩, ⟨SDL_KEYDOWN, 97⟩]] = none ∧
    Engine.whileRunning { m_window := 1, m_glContext := 2, m_running := true }
        ([⟨SDL_KEYUP, 27⟩, ⟨SDL_KEYDOWN, 97⟩] :: [[⟨SDL_QUIT, 0⟩]]) =
      (Engine.whileRunning { m_window := 1, m_glContext := 2, m_running := true }
        [[⟨SDL_QUIT, 0⟩]]).map
        (fun r => (r.1, polls [⟨SDL_KEYUP, 27⟩, ⟨SDL_KEYDOWN, 97⟩] ++ updateThenRender 1 ++ r.2)) :=
  ⟨(C5_other_events_keep_running { m_window := 1, m_glContext := 2, m_running := true }
      [⟨SDL_KEYUP, 27⟩, ⟨SDL_KEYDOWN, 97⟩] [[⟨SDL_QUIT, 0⟩]] (by decide) rfl).2.2.1,
    (C5_other_events_keep_running { m_window := 1, m_glContext := 2, m_running := true }
      [⟨SDL_KEYUP, 27⟩, ⟨SDL_KEYDOWN, 97⟩] [[⟨SDL_QUIT, 0⟩]] (by decide) rfl).2.2.2.1⟩

/-! ### Initialisation and shutdown -/

theorem init_true_iff (p : InitStub) :
    (({} : Engine).init p).1 = true ↔
      (0 ≤ p.SDL_Init ∧ p.SDL_CreateWindow ≠ nullptr ∧ p.SDL_GL_CreateContext ≠ nullptr) := by
  unfold Engine.init
  by_cases h1 : p.SDL_Init < 0
  · simp [h1]
  · by_cases h2 : p.SDL_CreateWindow = nullptr
    · simp [h1, h2]
    · by_cases h3 : p.SDL_GL_CreateContext = nullptr
      · simp [h1, h2, h3]
      · simp only [h1, h2, h3, if_false]
        simp
        exact ⟨not_lt.mp h1, h2, h3⟩

theorem init_false_of_failure (p : InitStub)
    (h : p.SDL_Init < 0 ∨ p.SDL_CreateWindow = nullptr ∨ p.SDL_GL_CreateContext = nullptr) :
    (({} : Engine).init p).1 = false := by
  cases hv : (({} : Engine).init p).1 with
  | false => rfl
  | true =>
    obtain ⟨h1, h2, h3⟩ := (init_true_iff p).mp hv
    rcases h with h | h | h
    · exact absurd h (not_lt.mpr h1)
    · exact absurd h h2
    · exact absurd h h3

theorem shutdown_null (e : Engine) :
    e.shutdown.1.m_window = nullptr ∧ e.shutdown.1.m_glContext = nullptr := by
  obtain ⟨w, c, r⟩ := e
  unfold Engine.shutdown
  by_cases hc : c = nullptr <;> by_cases hw : w = nullptr <;> simp [hc, hw]

/-- C1, as stated, fails: when only context creation fails, `init()` returns
false but the window handle keeps the window that was created. -/
theorem C1_window_handle_counterexample :
    (⟨0, 1, 0, "no context"⟩ : InitStub).SDL_GL_CreateContext = nullptr ∧
    (({} : Engine).init ⟨0, 1, 0, "no context"⟩).1 = false ∧
    (({} : Engine).init ⟨0, 1, 0, "no context"⟩).2.1.m_window = 1 ∧
    (({} : Engine).init ⟨0, 1, 0, "no context"⟩).2.1.m_window ≠ nullptr := by
  decide

/-- C1, amended: whenever subsystem initialisation, window creation or context
creation fails, `init()` on a fresh engine returns false and leaves the context
handle null; the window handle is null when subsystem initialisation or window
creation fails, and holds the created (non-null) window when only context
creation fails. -/
theorem C1_init_failure_handles (p : InitStub)
    (h : p.SDL_Init < 0 ∨ p.SDL_CreateWindow = nullptr ∨ p.SDL_GL_CreateContext = nullptr) :
    (({} : Engine).init p).1 = false ∧
    (({} : Engine).init p).2.1.m_glContext = nullptr ∧
    (p.SDL_Init < 0 ∨ p.SDL_CreateWindow = nullptr →
      (({} : Engine).init p).2.1.m_window = nullptr) ∧
    (0 ≤ p.SDL_Init → p.SDL_CreateWindow ≠ nullptr →
      (({} : Engine).init p).2.1.m_window = p.SDL_CreateWindow ∧
      (({} : Engine).init p).2.1.m_window ≠ nullptr) := by
  unfold Engine.init
  by_cases h1 : p.SDL_Init < 0
  · simp [h1]
  · by_cases h2 : p.SDL_CreateWindow = nullptr
    · simp [h1, h2]
    · by_cases h3 : p.SDL_GL_CreateContext = nullptr
      · simp [h1, h2, h3]
      · simp [h1, h2, h3] at h

/-- Witness of the amended C1, at the three kinds of failure. -/
theorem C1_init_failure_handles_witness :
    ((({} : Engine).init ⟨-1, 1, 2, "no video"⟩).1 = false ∧
      (({} : Engine).init ⟨-1, 1, 2, "no video"⟩).2.1.m_glContext = nullptr) ∧
    ((({} : Engine).init ⟨0, 0, 2, "no window"⟩).1 = false ∧
      (({} : Engine).init ⟨0, 0, 2, "no window"⟩).2.1.m_glContext = nullptr) ∧
    ((({} : Engine).init ⟨0, 1, 0, "no context"⟩).2.1.m_window = 1 ∧
      (({} : Engine).init ⟨0, 1, 0, "no context"⟩).2.1.m_window ≠ nullptr) :=
  ⟨⟨(C1_init_failure_handles ⟨-1, 1, 2, "no video"⟩ (Or.inl (by decide))).1,
      (C1_init_failure_handles ⟨-1, 1, 2, "no video"⟩ (Or.inl (by decide))).2.1⟩,
    ⟨(C1_init_failure_handles ⟨0, 0, 2, "no window"⟩ (Or.inr (Or.inl rfl))).1,
      (C1_init_failure_handles ⟨0, 0, 2, "no window"⟩ (Or.inr (Or.inl rfl))).2.1⟩,
    (C1_init_failure_handles ⟨0, 1, 0, "no context"⟩ (Or.inr (Or.inr rfl))).2.2.2
      (by decide) (by decide)⟩

/-- C2: `init()` on a fresh engine returns true exactly when subsystem
initialisation, window creation and context creation all succeed.  When it
returns true both handles are non-null (they are what the two creation calls
returned) and the calls made are, in this order: subsystem initialisation, the
four attribute requests (OpenGL 3.3, core profile, double buffering), the
creation of the 800x600 window, the creation of the context on that window, the
swap interval set to 1, and the six log calls. -/
theorem C2_init_success (p : InitStub) :
    ((({} : Engine).init p).1 = true ↔
      (0 ≤ p.SDL_Init ∧ p.SDL_CreateWindow ≠ nullptr ∧ p.SDL_GL_CreateContext ≠ nullptr)) ∧
    ((({} : Engine).init p).1 = true →
      (({} : Engine).init p).2.1.m_window ≠ nullptr ∧
      (({} : Engine).init p).2.1.m_glContext ≠ nullptr ∧
      (({} : Engine).init p).2.1 =
        { m_window := p.SDL_CreateWindow, m_glContext := p.SDL_GL_CreateContext,
          m_running := false } ∧
      (({} : Engine).init p).2.2 =
        [Effect.SDL_Init (SDL_INIT_VIDEO ||| SDL_INIT_AUDIO ||| SDL_INIT_TIMER) p.SDL_Init,
          Effect.SDL_GL_SetAttribute SDL_GL_CONTEXT_MAJOR_VERSION 3,
          Effect.SDL_GL_SetAttribute SDL_GL_CONTEXT_MINOR_VERSION 3,
          Effect.SDL_GL_SetAttribute SDL_GL_CONTEXT_PROFILE_MASK SDL_GL_CONTEXT_PROFILE_CORE,
          Effect.SDL_GL_SetAttribute SDL_GL_DOUBLEBUFFER 1,
          Effect.SDL_CreateWindow "AIEngine2D - Test" SDL_WINDOWPOS_CENTERED
            SDL_WINDOWPOS_CENTERED 800 600 (SDL_WINDOW_OPENGL ||| SDL_WINDOW_SHOWN)
            p.SDL_CreateWindow,
          Effect.SDL_GL_CreateContext p.SDL_CreateWindow p.SDL_GL_CreateContext,
          Effect.SDL_GL_SetSwapInterval 1,
          Effect.log LogLevel.Info "Engine initialized successfully" [],
          Effect.log LogLevel.Info "Window: 800x600" [],
          Effect.log LogLevel.Info "OpenGL context created" [],
          Effect.log LogLevel.Info "Press ESC to exit" [],
          Effect.log LogLevel.Warning "This is a warning test" [],
          Effect.log LogLevel.Error "This is an error test (not a real error)" []]) := by
  unfold Engine.init
  by_cases h1 : p.SDL_Init < 0
  · simp [h1]
  · by_cases h2 : p.SDL_CreateWindow = nullptr
    · simp [h1, h2]
    · by_cases h3 : p.SDL_GL_CreateContext = nullptr
      · simp [h1, h2, h3]
      · simp only [h1, h2, h3, if_false]
        simp
        exact ⟨not_lt.mp h1, h2, h3⟩

/-- Witness of C2: a stub on which all three steps succeed. -/
theorem C2_init_success_witness :
    (({} : Engine).init ⟨0, 7, 9, ""⟩).2.1.m_window ≠ nullptr ∧
    (({} : Engine).init ⟨0, 7, 9, ""⟩).2.1.m_glContext ≠ nullptr ∧
    (({} : Engine).init ⟨0, 7, 9, ""⟩).2.1 =
      { m_window := 7, m_glContext := 9, m_running := false } :=
  ⟨((C2_init_success ⟨0, 7, 9, ""⟩).2 (by decide)).1,
    ((C2_init_success ⟨0, 7, 9, ""⟩).2 (by decide)).2.1,
    ((C2_init_success ⟨0, 7, 9, ""⟩).2 (by decide)).2.2.1⟩

/-- C3: from every engine state (those reached by a successful `init()` among
them) `shutdown()` leaves both handles null; a second `shutdown()` deletes no
context and destroys no window (its only calls are the subsystem release and the
log line) and leaves the engine as the first call left it. -/
theorem C3_shutdown_twice (e : Engine) :
    e.shutdown.1.m_window = nullptr ∧
    e.shutdown.1.m_glContext = nullptr ∧
    e.shutdown.1.shutdown.1 = e.shutdown.1 ∧
    e.shutdown.1.shutdown.2 =
      [Effect.SDL_Quit, Effect.log LogLevel.Info "Engine shutdown complete" []] ∧
    (∀ p : InitStub,
      (e.init p).2.1.shutdown.1.m_window = nullptr ∧
      (e.init p).2.1.shutdown.1.m_glContext = nullptr ∧
      (e.init p).2.1.shutdown.1.shutdown = ((e.init p).2.1.shutdown.1,
        [Effect.SDL_Quit, Effect.log LogLevel.Info "Engine shutdown complete" []])) := by
  have key : ∀ e : Engine, e.shutdown.1.m_window = nullptr ∧
      e.shutdown.1.m_glContext = nullptr ∧
      e.shutdown.1.shutdown = (e.shutdown.1,
        [Effect.SDL_Quit, Effect.log LogLevel.Info "Engine shutdown complete" []]) := by
    intro e
    obtain ⟨w, c, r⟩ := e
    unfold Engine.shutdown
    by_cases hc : c = nullptr <;> by_cases hw : w = nullptr <;> simp [hc, hw]
  refine ⟨(key e).1, (key e).2.1, ?_, ?_, fun p => key _⟩
  · rw [(key e).2.2]
  · rw [(key e).2.2]

/-- C9: on each failing path of `init()` nothing acquired so far is released
(no context deletion, no window destruction, no subsystem release), exactly one
log call is made and it is at level `Error`, and after the failing call the only
calls are the read of the diagnostic string and that log call: no later creation
step and no success log. -/
theorem C9_init_failure_trace (e : Engine) (p : InitStub)
    (h : p.SDL_Init < 0 ∨ p.SDL_CreateWindow = nullptr ∨ p.SDL_GL_CreateContext = nullptr) :
    (∀ x ∈ (e.init p).2.2, x.isRelease = false) ∧
    (e.init p).2.2.countP Effect.isLog = 1 ∧
    (e.init p).2.2.countP Effect.isErrorLog = 1 ∧
    (p.SDL_Init < 0 →
      (e.init p).2.2 =
        [Effect.SDL_Init (SDL_INIT_VIDEO ||| SDL_INIT_AUDIO ||| SDL_INIT_TIMER) p.SDL_Init,
          Effect.SDL_GetError p.SDL_GetError,
          Effect.log LogLevel.Error "SDL initialization failed: %s" [p.SDL_GetError]]) ∧
    (0 ≤ p.SDL_Init → p.SDL_CreateWindow = nullptr →
      (e.init p).2.2 =
        [Effect.SDL_Init (SDL_INIT_VIDEO ||| SDL_INIT_AUDIO ||| SDL_INIT_TIMER) p.SDL_Init,
          Effect.SDL_GL_SetAttribute SDL_GL_CONTEXT_MAJOR_VERSION 3,
          Effect.SDL_GL_SetAttribute SDL_GL_CONTEXT_MINOR_VERSION 3,
          Effect.SDL_GL_SetAttribute SDL_GL_CONTEXT_PROFILE_MASK SDL_GL_CONTEXT_PROFILE_CORE,
          Effect.SDL_GL_SetAttribute SDL_GL_DOUBLEBUFFER 1,
          Effect.SDL_CreateWindow "AIEngine2D - Test" SDL_WINDOWPOS_CENTERED
            SDL_WINDOWPOS_CENTERED 800 600 (SDL_WINDOW_OPENGL ||| SDL_WINDOW_SHOWN) nullptr,
          Effect.SDL_GetError p.SDL_GetError,
          Effect.log LogLevel.Error "Window creation failed: %s" [p.SDL_GetError]]) ∧
    (0 ≤ p.SDL_Init → p.SDL_CreateWindow ≠ nullptr → p.SDL_GL_CreateContext = nullptr →
      (e.init p).2.2 =
        [Effect.SDL_Init (SDL_INIT_VIDEO ||| SDL_INIT_AUDIO ||| SDL_INIT_TIMER) p.SDL_Init,
          Effect.SDL_GL_SetAttribute SDL_GL_CONTEXT_MAJOR_VERSION 3,
          Effect.SDL_GL_SetAttribute SDL_GL_CONTEXT_MINOR_VERSION 3,
          Effect.SDL_GL_SetAttribute SDL_GL_CONTEXT_PROFILE_MASK SDL_GL_CONTEXT_PROFILE_CORE,
          Effect.SDL_GL_SetAttribute SDL_GL_DOUBLEBUFFER 1,
          Effect.SDL_CreateWindow "AIEngine2D - Test" SDL_WINDOWPOS_CENTERED
            SDL_WINDOWPOS_CENTERED 800 600 (SDL_WINDOW_OPENGL ||| SDL_WINDOW_SHOWN)
            p.SDL_CreateWindow,
          Effect.SDL_GL_CreateContext p.SDL_CreateWindow nullptr,
          Effect.SDL_GetError p.SDL_GetError,
          Effect.log LogLevel.Error "OpenGL context creation failed: %s" [p.SDL_GetError]]) := by
  unfold Engine.init
  by_cases h1 : p.SDL_Init < 0
  · simp [h1, Effect.isRelease, Effect.isLog, Effect.isErrorLog]
  · by_cases h2 : p.SDL_CreateWindow = nullptr
    · simp [h1, h2, Effect.isRelease, Effect.isLog, Effect.isErrorLog]
    · by_cases h3 : p.SDL_GL_CreateContext = nullptr
      · simp [h1, h2, h3, Effect.isRelease, Effect.isLog, Effect.isErrorLog]
      · simp [h1, h2, h3] at h

/-- Witness of C9: window creation fails on an engine that already holds handles. -/
theorem C9_init_failure_trace_witness :
    (∀ x ∈ (({ m_window := 3, m_glContext := 4, m_running := false } : Engine).init
      ⟨0, 0, 5, "no window"⟩).2.2, x.isRelease = false) ∧
    (({ m_window := 3, m_glContext := 4, m_running := false } : Engine).init
      ⟨0, 0, 5, "no window"⟩).2.2.countP Effect.isLog = 1 :=
  ⟨(C9_init_failure_trace { m_window := 3, m_glContext := 4, m_running := false }
      ⟨0, 0, 5, "no window"⟩ (Or.inr (Or.inl rfl))).1,
    (C9_init_failure_trace { m_window := 3, m_glContext := 4, m_running := false }
      ⟨0, 0, 5, "no window"⟩ (Or.inr (Or.inl rfl))).2.1⟩

/-! ### Logger -/

theorem vformat_tag (level : LogLevel) :
    vformat "%s " [Logger.getLevelPrefix level] = Logger.getLevelPrefix level ++ " " := by
  cases level <;> rfl

theorem newlineCount_append (a b : String) :
    newlineCount (a ++ b) = newlineCount a + newlineCount b := by
  simp [newlineCount, String.data_append, List.count_append]

theorem newlineCount_tag (level : LogLevel) :
    newlineCount (Logger.getLevelPrefix level ++ " ") = 0 := by
  cases level <;> decide

theorem log_eq (win32 : Bool) (level : LogLevel) (format : String) (args : List String) :
    Logger.log win32 level format args =
      Logger.setConsoleColor win32 level ++
        [ConsoleOp.write (Logger.getLevelPrefix level ++ " "),
          ConsoleOp.write (vformat format args), ConsoleOp.write "\n"] ++
        Logger.resetConsoleColor win32 := by
  have hn : vformat "\n" [] = "\n" := rfl
  simp [Logger.log, printf, vformat_tag, hn]

theorem stdoutBytes_writes (c t m r : String) :
    stdoutBytes [ConsoleOp.write c, ConsoleOp.write (t ++ " "), ConsoleOp.write m,
      ConsoleOp.write "\n", ConsoleOp.write r] = c ++ t ++ " " ++ m ++ "\n" ++ r := by
  simp only [stdoutBytes, String.append_assoc, String.append_empty]

/-- C6, as stated, fails: a message that itself holds a newline is printed as it
is, so this call of `log` prints two lines. -/
theorem C6_two_lines_counterexample :
    stdoutBytes (Logger.log false LogLevel.Info "a\nb" []) = "\x1b[32m[INFO] a\nb\n\x1b[0m" ∧
    newlineCount (stdoutBytes (Logger.log false LogLevel.Info "a\nb" [])) = 2 := by
  decide

/-- C6, amended: for each level and every formatted message `log` writes the
level tag (`[INFO]`, `[WARNING]`, `[ERROR]`), one space, the message and one
newline, and resets the colour after that.  Without `_WIN32` the bytes written
are the colour escape of the level (ESC[32m, ESC[33m, ESC[31m), the tag, a
space, the message, a newline, ESC[0m; with `_WIN32` the colour is set and reset
through the console attribute and the bytes are the tag, a space, the message
and a newline.  The output holds one newline more than the message: it is
exactly one line whenever the formatted message holds no newline. -/
theorem C6_log_output (format : String) (args : List String) :
    stdoutBytes (Logger.log false LogLevel.Info format args) =
      "\x1b[32m" ++ "[INFO]" ++ " " ++ vformat format args ++ "\n" ++ "\x1b[0m" ∧
    stdoutBytes (Logger.log false LogLevel.Warning format args) =
      "\x1b[33m" ++ "[WARNING]" ++ " " ++ vformat format args ++ "\n" ++ "\x1b[0m" ∧
    stdoutBytes (Logger.log false LogLevel.Error format args) =
      "\x1b[31m" ++ "[ERROR]" ++ " " ++ vformat format args ++ "\n" ++ "\x1b[0m" ∧
    (∀ level : LogLevel, Logger.log true level format args =
      Logger.setConsoleColor true level ++
        [ConsoleOp.write (Logger.getLevelPrefix level ++ " "),
          ConsoleOp.write (vformat format args), ConsoleOp.write "\n",
          ConsoleOp.SetConsoleTextAttribute
            (FOREGROUND_RED ||| FOREGROUND_GREEN ||| FOREGROUND_BLUE)]) ∧
    (∀ level : LogLevel, stdoutBytes (Logger.log true level format args) =
      Logger.getLevelPrefix level ++ " " ++ vformat format args ++ "\n") ∧
    (∀ (win32 : Bool) (level : LogLevel),
      newlineCount (stdoutBytes (Logger.log win32 level format args)) =
        newlineCount (vformat format args) + 1) ∧
    (∀ (win32 : Bool) (level : LogLevel), newlineCount (vformat format args) = 0 →
      newlineCount (stdoutBytes (Logger.log win32 level format args)) = 1) := by
  have hcount : ∀ (win32 : Bool) (level : LogLevel),
      newlineCount (stdoutBytes (Logger.log win32 level format args)) =
        newlineCount (vformat format args) + 1 := by
    intro win32 level
    have ht := newlineCount_tag level
    have h1 : newlineCount "\n" = 1 := by decide
    have h2 : newlineCount "" = 0 := by decide
    have h3 : newlineCount "\x1b[0m" = 0 := by decide
    have h4 : newlineCount "\x1b[32m" = 0 := by decide
    have h5 : newlineCount "\x1b[33m" = 0 := by decide
    have h6 : newlineCount "\x1b[31m" = 0 := by decide
    have h7 : newlineCount "\n\x1b[0m" = 1 := by decide
    have e0 : vformat "\x1b[0m" [] = "\x1b[0m" := rfl
    have e1 : vformat "\x1b[32m" [] = "\x1b[32m" := rfl
    have e2 : vformat "\x1b[33m" [] = "\x1b[33m" := rfl
    have e3 : vformat "\x1b[31m" [] = "\x1b[31m" := rfl
    rw [log_eq]
    cases win32 <;> cases level <;>
      simp [Logger.setConsoleColor, Logger.resetConsoleColor, printf, stdoutBytes,
        newlineCount_append, ht, h1, h2, h3, h4, h5, h6, h7, e0, e1, e2, e3]
  refine ⟨?_, ?_, ?_, ?_, ?_, hcount, ?_⟩
  · rw [log_eq]
    exact stdoutBytes_writes "\x1b[32m" "[INFO]" (vformat format args) "\x1b[0m"
  · rw [log_eq]
    exact stdoutBytes_writes "\x1b[33m" "[WARNING]" (vformat format args) "\x1b[0m"
  · rw [log_eq]
    exact stdoutBytes_writes "\x1b[31m" "[ERROR]" (vformat format args) "\x1b[0m"
  · intro level
    rw [log_eq]
    simp [Logger.resetConsoleColor]
  · intro level
    rw [log_eq]
    cases level <;>
      simp [Logger.setConsoleColor, Logger.resetConsoleColor, stdoutBytes, String.append_assoc]
  · intro win32 level h
    rw [hcount, h]

/-- Witness of the amended C6: an error line with one `%s` argument. -/
theorem C6_log_output_witness :
    newlineCount (vformat "Window creation failed: %s" ["no display"]) = 0 ∧
    newlineCount (stdoutBytes
      (Logger.log false LogLevel.Error "Window creation failed: %s" ["no display"])) = 1 :=
  ⟨by decide, (C6_log_output "Window creation failed: %s" ["no display"]).2.2.2.2.2.2
    false LogLevel.Error (by decide)⟩

/-! ### The loop returns, and the exit code of `main` -/

theorem whileRunning_returns (schedule : List (List SDL_Event))
    (h : ∃ batch ∈ schedule, ∃ event ∈ batch, isQuitRequest event = true) (e : Engine) :
    ∃ r, Engine.whileRunning e schedule = some r := by
  induction schedule generalizing e with
  | nil => simp at h
  | cons batch rest ih =>
    cases hr : e.m_running with
    | false => exact ⟨_, whileRunning_stopped e _ hr⟩
    | true =>
      rw [whileRunning_step e batch rest hr]
      cases hb : batch.any isQuitRequest with
      | true =>
        rw [whileRunning_stopped _ rest (by simp)]
        exact ⟨_, rfl⟩
      | false =>
        have hrest : ∃ b ∈ rest, ∃ event ∈ b, isQuitRequest event = true := by
          obtain ⟨b, hm, event, hme, hq⟩ := h
          rcases List.mem_cons.mp hm with hbb | hbr
          · subst hbb
            have := any_isQuitRequest_of_mem ⟨event, hme, hq⟩
            rw [hb] at this
            exact absurd this (by decide)
          · exact ⟨b, hbr, event, hme, hq⟩
        obtain ⟨r, hr2⟩ := ih hrest { e with m_running := !false }
        rw [hr2]
        exact ⟨_, rfl⟩

end SebF2DEngine

namespace AIEngine2D

open SebF2DEngine

/-- C7: `main` returns 1 when `init()` fails, and then makes no call of `run()`
or `shutdown()` (its calls are those of `init()`); whenever `main` returns after
a successful `init()` it returns 0; and when `init()` succeeds and a quit
request is delivered in some scheduled batch, `run()` returns, `shutdown()`
completes and `main` returns 0.  The result does not depend on `argc`, `argv`. -/
theorem C7_main_exit_code (argc : Int) (argv : List String) (p : InitStub)
    (schedule : List (List SDL_Event)) :
    ((p.SDL_Init < 0 ∨ p.SDL_CreateWindow = nullptr ∨ p.SDL_GL_CreateContext = nullptr) →
      main argc argv p schedule = some (1, (({} : Engine).init p).2.2) ∧
      (∀ x ∈ (({} : Engine).init p).2.2, x.isLoopCall = false ∧ x.isRelease = false ∧
        x ≠ Effect.log LogLevel.Info "Engine shutdown complete" [])) ∧
    ((0 ≤ p.SDL_Init ∧ p.SDL_CreateWindow ≠ nullptr ∧ p.SDL_GL_CreateContext ≠ nullptr) →
      (∀ r, main argc argv p schedule = some r → r.1 = 0) ∧
      ((∃ batch ∈ schedule, ∃ event ∈ batch, isQuitRequest event = true) →
        ∃ e1 t1, (({} : Engine).init p).2.1.run schedule = some (e1, t1) ∧
          main argc argv p schedule =
            some (0, (({} : Engine).init p).2.2 ++ t1 ++ e1.shutdown.2) ∧
          e1.shutdown.1.m_window = nullptr ∧ e1.shutdown.1.m_glContext = nullptr)) ∧
    (∀ (argc2 : Int) (argv2 : List String),
      main argc2 argv2 p schedule = main argc argv p schedule) := by
  refine ⟨?_, ?_, fun _ _ => rfl⟩
  · intro h
    have hf := init_false_of_failure p h
    constructor
    · simp [main, hf]
    · unfold Engine.init
      by_cases h1 : p.SDL_Init < 0
      · simp [h1, Effect.isRelease, Effect.isLoopCall]
      · by_cases h2 : p.SDL_CreateWindow = nullptr
        · simp [h1, h2, Effect.isRelease, Effect.isLoopCall]
        · by_cases h3 : p.SDL_GL_CreateContext = nullptr
          · simp [h1, h2, h3, Effect.isRelease, Effect.isLoopCall]
          · simp [h1, h2, h3] at h
  · intro h
    have hs : (({} : Engine).init p).1 = true := (init_true_iff p).mpr h
    constructor
    · intro r hr
      simp only [main, hs] at hr
      cases hrun : (({} : Engine).init p).2.1.run schedule with
      | none => simp [hrun] at hr
      | some r1 =>
        simp [hrun] at hr
        rw [← hr]
    · intro hq
      obtain ⟨r, hr⟩ := whileRunning_returns schedule hq
        { (({} : Engine).init p).2.1 with m_running := true }
      refine ⟨r.1, r.2, hr, ?_, ?_⟩
      · have hrun : (({} : Engine).init p).2.1.run schedule = some r := hr
        simp [main, hs, hrun]
      · exact ⟨(shutdown_null r.1).1, (shutdown_null r.1).2⟩

/-- Witness of C7: a failing start (exit code 1) and a start that succeeds and
receives a quit event in the second batch (exit code 0). -/
theorem C7_main_exit_code_witness :
    main 1 ["engine"] ⟨0, 0, 0, "no window"⟩ [[⟨SDL_QUIT, 0⟩]] =
      some (1, (({} : Engine).init ⟨0, 0, 0, "no window"⟩).2.2) ∧
    (∀ r, main 1 ["engine"] ⟨0, 7, 9, ""⟩ [[], [⟨SDL_QUIT, 0⟩]] = some r → r.1 = 0) ∧
    (∃ e1 t1, (({} : Engine).init ⟨0, 7, 9, ""⟩).2.1.run [[], [⟨SDL_QUIT, 0⟩]] = some (e1, t1) ∧
      main 1 ["engine"] ⟨0, 7, 9, ""⟩ [[], [⟨SDL_QUIT, 0⟩]] =
        some (0, (({} : Engine).init ⟨0, 7, 9, ""⟩).2.2 ++ t1 ++ e1.shutdown.2) ∧
      e1.shutdown.1.m_window = nullptr ∧ e1.shutdown.1.m_glContext = nullptr) :=
  ⟨((C7_main_exit_code 1 ["engine"] ⟨0, 0, 0, "no window"⟩ [[⟨SDL_QUIT, 0⟩]]).1
      (Or.inr (Or.inl rfl))).1,
    ((C7_main_exit_code 1 ["engine"] ⟨0, 7, 9, ""⟩ [[], [⟨SDL_QUIT, 0⟩]]).2.1 (by decide)).1,
    ((C7_main_exit_code 1 ["engine"] ⟨0, 7, 9, ""⟩ [[], [⟨SDL_QUIT, 0⟩]]).2.1 (by decide)).2
      ⟨[⟨SDL_QUIT, 0⟩], by decide, ⟨SDL_QUIT, 0⟩, by decide, by decide⟩⟩

end AIEngine2D

namespace SebF2DEngine

/-! ### Handle lifetimes -/

theorem after_cons (l : Live) (x : Effect) (t : List Effect) :
    l.after (x :: t) = (l.step x).after t := rfl

theorem after_append (l : Live) (t1 t2 : List Effect) :
    l.after (t1 ++ t2) = (l.after t1).after t2 := by
  simp [Live.after, List.foldl_append]

theorem contextsOnLiveWindows_append (t1 t2 : List Effect) (l : Live) :
    contextsOnLiveWindows l (t1 ++ t2) =
      (contextsOnLiveWindows l t1 && contextsOnLiveWindows (l.after t1) t2) := by
  induction t1 generalizing l with
  | nil => simp [contextsOnLiveWindows, Live.after]
  | cons x t ih =>
    cases x <;> simp [contextsOnLiveWindows, after_cons, ih, Bool.and_assoc]

theorem windowsOutliveContexts_append (t1 t2 : List Effect) (l : Live) :
    windowsOutliveContexts l (t1 ++ t2) =
      (windowsOutliveContexts l t1 && windowsOutliveContexts (l.after t1) t2) := by
  induction t1 generalizing l with
  | nil => simp [windowsOutliveContexts, Live.after]
  | cons x t ih =>
    cases x <;> simp [windowsOutliveContexts, after_cons, ih, Bool.and_assoc]

theorem windowHandlesFresh_append (t1 t2 : List Effect) (l : Live) :
    windowHandlesFresh l (t1 ++ t2) =
      (windowHandlesFresh l t1 && windowHandlesFresh (l.after t1) t2) := by
  induction t1 generalizing l with
  | nil => simp [windowHandlesFresh, Live.after]
  | cons x t ih =>
    cases x <;> simp [windowHandlesFresh, after_cons, ih, Bool.and_assoc]

theorem init_contextsOnLiveWindows (e : Engine) (l : Live) (p : InitStub) :
    contextsOnLiveWindows l (e.init p).2.2 = true := by
  unfold Engine.init
  by_cases h1 : p.SDL_Init < 0
  · simp [h1, contextsOnLiveWindows]
  · by_cases h2 : p.SDL_CreateWindow = nullptr
    · simp [h1, h2, contextsOnLiveWindows]
    · by_cases h3 : p.SDL_GL_CreateContext = nullptr
      · simp [h1, h2, h3, contextsOnLiveWindows, Live.step]
      · simp [h1, h2, h3, contextsOnLiveWindows, Live.step]

theorem shutdown_contextsOnLiveWindows (e : Engine) (l : Live) :
    contextsOnLiveWindows l e.shutdown.2 = true := by
  obtain ⟨w, c, r⟩ := e
  unfold Engine.shutdown
  by_cases hc : c = nullptr <;> by_cases hw : w = nullptr <;>
    simp [hc, hw, contextsOnLiveWindows]

theorem calls_contextsOnLiveWindows (cs : List Call) (e : Engine) (l : Live) :
    contextsOnLiveWindows l (e.calls cs).2 = true := by
  induction cs generalizing e l with
  | nil => simp [Engine.calls, contextsOnLiveWindows]
  | cons c cs ih =>
    cases c with
    | init p =>
      simp only [Engine.calls, contextsOnLiveWindows_append, init_contextsOnLiveWindows, ih,
        Bool.and_self]
    | shutdown =>
      simp only [Engine.calls, contextsOnLiveWindows_append, shutdown_contextsOnLiveWindows, ih,
        Bool.and_self]

theorem init_lifetimes (e : Engine) (l : Live) (p : InitStub) (hinv : LifetimeInv e l)
    (hf : windowHandlesFresh l (e.init p).2.2 = true) :
    windowsOutliveContexts l (e.init p).2.2 = true ∧
      LifetimeInv (e.init p).2.1 (l.after (e.init p).2.2) := by
  obtain ⟨h0, hctx⟩ := hinv
  unfold Engine.init at hf ⊢
  by_cases h1 : p.SDL_Init < 0
  · simp only [h1, if_true] at hf ⊢
    simp [windowsOutliveContexts, Live.after, Live.step, LifetimeInv]
    exact ⟨h0, hctx⟩
  · by_cases h2 : p.SDL_CreateWindow = nullptr
    · simp [h1, h2, windowsOutliveContexts, Live.after, Live.step, LifetimeInv]
      refine ⟨h0, fun c w hm => ?_⟩
      obtain ⟨hw, hc, _⟩ := hctx c w hm
      refine ⟨hw, hc, fun hw0 => ?_⟩
      rw [hw0] at hw
      exact absurd hw h0
    · by_cases h3 : p.SDL_GL_CreateContext = nullptr
      · simp [h1, h2, h3, windowsOutliveContexts, Live.after, Live.step, LifetimeInv]
        simp [h1, h2, h3, windowHandlesFresh, Live.step] at hf
        refine ⟨⟨fun h => h2 h.symm, h0⟩, fun c w hm => ?_⟩
        obtain ⟨hw, hc, _⟩ := hctx c w hm
        refine ⟨Or.inr hw, hc, fun hwn => ?_⟩
        rw [hwn] at hw
        exact absurd hw hf
      · simp [h1, h2, h3, windowsOutliveContexts, Live.after, Live.step, LifetimeInv]
        simp [h1, h2, h3, windowHandlesFresh, Live.step] at hf
        refine ⟨⟨fun h => h2 h.symm, h0⟩, fun c w hm => ?_⟩
        rcases hm with ⟨hcn, hwn⟩ | hm
        · exact ⟨Or.inl hwn, by rw [hcn]; exact h3, fun _ => hcn⟩
        · obtain ⟨hw, hc, _⟩ := hctx c w hm
          refine ⟨Or.inr hw, hc, fun hwn => ?_⟩
          rw [hwn] at hw
          exact absurd hw hf

theorem shutdown_lifetimes (e : Engine) (l : Live) (hinv : LifetimeInv e l) :
    windowsOutliveContexts l e.shutdown.2 = true ∧
      LifetimeInv e.shutdown.1 (l.after e.shutdown.2) := by
  obtain ⟨w, c, r⟩ := e
  obtain ⟨h0, hctx⟩ := hinv
  simp only at hctx
  have hnull : ∀ c1 w1 : Ptr, (c1, w1) ∈ l.contexts → w1 = nullptr → c1 = nullptr := by
    intro c1 w1 hm hw0
    have hw := (hctx c1 w1 hm).1
    rw [hw0] at hw
    exact absurd hw h0
  unfold Engine.shutdown
  by_cases hc : c = nullptr
  · by_cases hw : w = nullptr
    · simp [hc, hw, windowsOutliveContexts, Live.after, Live.step, LifetimeInv]
      exact ⟨h0, fun c1 w1 hm => ⟨(hctx c1 w1 hm).1, (hctx c1 w1 hm).2.1, hnull c1 w1 hm⟩⟩
    · simp [hc, hw, windowsOutliveContexts, Live.after, Live.step, LifetimeInv]
      have hfree : ∀ a b : Ptr, (a, b) ∈ l.contexts → ¬b = w := by
        intro a b hm hb
        have ha := (hctx a b hm).2.2 hb
        rw [hc] at ha
        exact (hctx a b hm).2.1 ha
      exact ⟨hfree, fun h => absurd h h0, fun c1 w1 hm =>
        ⟨⟨(hctx c1 w1 hm).1, hfree c1 w1 hm⟩, (hctx c1 w1 hm).2.1, hnull c1 w1 hm⟩⟩
  · by_cases hw : w = nullptr
    · simp [hc, hw, windowsOutliveContexts, Live.after, Live.step, LifetimeInv]
      exact ⟨h0, fun c1 w1 hm _ => ⟨(hctx c1 w1 hm).1, (hctx c1 w1 hm).2.1, hnull c1 w1 hm⟩⟩
    · simp [hc, hw, windowsOutliveContexts, Live.after, Live.step, LifetimeInv]
      have hfree : ∀ a b : Ptr, (a, b) ∈ l.contexts → ¬a = c → ¬b = w := by
        intro a b hm hne hb
        exact hne ((hctx a b hm).2.2 hb)
      refine ⟨fun a b hm => ?_, fun h => absurd h h0, fun c1 w1 hm hne =>
        ⟨⟨(hctx c1 w1 hm).1, hfree c1 w1 hm hne⟩, (hctx c1 w1 hm).2.1, hnull c1 w1 hm⟩⟩
      by_cases hac : a = c
      · exact Or.inl hac
      · exact Or.inr (hfree a b hm hac)

theorem calls_lifetimes (cs : List Call) (e : Engine) (l : Live) (hinv : LifetimeInv e l)
    (hf : windowHandlesFresh l (e.calls cs).2 = true) :
    windowsOutliveContexts l (e.calls cs).2 = true := by
  induction cs generalizing e l with
  | nil => simp [Engine.calls, windowsOutliveContexts]
  | cons c cs ih =>
    cases c with
    | init p =>
      simp only [Engine.calls, windowHandlesFresh_append, Bool.and_eq_true] at hf
      obtain ⟨h1, h2⟩ := init_lifetimes e l p hinv hf.1
      simp only [Engine.calls, windowsOutliveContexts_append, Bool.and_eq_true]
      exact ⟨h1, ih _ _ h2 hf.2⟩
    | shutdown =>
      simp only [Engine.calls, windowHandlesFresh_append, Bool.and_eq_true] at hf
      obtain ⟨h1, h2⟩ := shutdown_lifetimes e l hinv
      simp only [Engine.calls, windowsOutliveContexts_append, Bool.and_eq_true]
      exact ⟨h1, ih _ _ h2 hf.2⟩

theorem lifetimeInv_fresh : LifetimeInv {} {} := by
  simp [LifetimeInv]

/-- C8: the lifetime of the graphics context lies inside the lifetime of its
window.  (1) In the trace of any sequence of `init()` / `shutdown()` calls, from
any engine state, every context creation names a window that was created before
and is alive at that point.  (2) From every engine state with both handles
non-null, `shutdown()` makes exactly these calls in this order: delete the
context, destroy the window, release the subsystems, log.  (3) From every
engine state the releases of `shutdown()` come in the order context, window,
subsystems, each at most once.  (4) In the trace of any sequence of calls on a
fresh engine no window is destroyed while a context created on it is alive,
as long as the windowing layer does not hand out a window handle that is still
alive. -/
theorem C8_context_within_window (e : Engine) (cs : List Call) :
    contextsOnLiveWindows {} (e.calls cs).2 = true ∧
    (e.m_glContext ≠ nullptr → e.m_window ≠ nullptr →
      e.shutdown.2 =
        [Effect.SDL_GL_DeleteContext e.m_glContext, Effect.SDL_DestroyWindow e.m_window,
          Effect.SDL_Quit, Effect.log LogLevel.Info "Engine shutdown complete" []]) ∧
    e.shutdown.2.filter Effect.isRelease =
      (if e.m_glContext ≠ nullptr then [Effect.SDL_GL_DeleteContext e.m_glContext] else []) ++
      (if e.m_window ≠ nullptr then [Effect.SDL_DestroyWindow e.m_window] else []) ++
      [Effect.SDL_Quit] ∧
    (windowHandlesFresh {} (({} : Engine).calls cs).2 = true →
      windowsOutliveContexts {} (({} : Engine).calls cs).2 = true) := by
  refine ⟨calls_contextsOnLiveWindows cs e {}, ?_, ?_,
    calls_lifetimes cs {} {} lifetimeInv_fresh⟩
  · intro hc hw
    obtain ⟨w, c, r⟩ := e
    simp only at hc hw
    simp [Engine.shutdown, hc, hw]
  · obtain ⟨w, c, r⟩ := e
    unfold Engine.shutdown
    by_cases hc : c = nullptr <;> by_cases hw : w = nullptr <;>
      simp [hc, hw, Effect.isRelease]

/-- Witness of C8: an engine holding window 1 and context 5 is shut down; and
the sequence of a successful `init()`, an `init()` whose context creation fails,
a `shutdown()`, a successful `init()` that gets the freed window handle again,
and a `shutdown()`. -/
theorem C8_context_within_window_witness :
    ({ m_window := 1, m_glContext := 5, m_running := false } : Engine).shutdown.2 =
      [Effect.SDL_GL_DeleteContext 5, Effect.SDL_DestroyWindow 1, Effect.SDL_Quit,
        Effect.log LogLevel.Info "Engine shutdown complete" []] ∧
    windowHandlesFresh {} (({} : Engine).calls
      [Call.init ⟨0, 1, 5, ""⟩, Call.init ⟨0, 2, 0, "no context"⟩, Call.shutdown,
        Call.init ⟨0, 2, 6, ""⟩, Call.shutdown]).2 = true ∧
    windowsOutliveContexts {} (({} : Engine).calls
      [Call.init ⟨0, 1, 5, ""⟩, Call.init ⟨0, 2, 0, "no context"⟩, Call.shutdown,
        Call.init ⟨0, 2, 6, ""⟩, Call.shutdown]).2 = true :=
  ⟨(C8_context_within_window { m_window := 1, m_glContext := 5, m_running := false } []).2.1
      (by decide) (by decide),
    by decide,
    (C8_context_within_window {}
      [Call.init ⟨0, 1, 5, ""⟩, Call.init ⟨0, 2, 0, "no context"⟩, Call.shutdown,
        Call.init ⟨0, 2, 6, ""⟩, Call.shutdown]).2.2.2 (by decide)⟩

end SebF2DEngine
